import Mathlib

/-!
Verification of the lametric-json-data-generator dashboard backend.

Shallow embedding of the Python sources:
* `Client` — shared trace vocabulary for the OAuth2 authenticated clients;
* `Oura` — `src/oura.py` (`save_token`, `refresh_oura_token`,
  `get_oura_headers`, `make_request`);
* `Fitbit` — `src/fitbit.py` (`save_token`, `refresh_fitbit_token`,
  `get_fitbit_headers`, `make_request`);
* `Transport` — `src/transport.py` and `src/sources/transport.py`
  (`get_next_departure_minutes`, the HH:MM formatting of
  `get_next_departures_formatted`);
* `App` — `src/app.py` (`sum_bicycles`, `fetch_bike_counts`,
  `root_custom_json`).

Outbound HTTP is modelled by scripting the outcome of each request the code
could issue (`GetOutcome`, `RefreshOutcome`, ...) and having each embedded
function additionally return the ordered list of observable I/O events it
performed (`Client.Event`), so that temporal claims (number of requests,
persistence before retry) become statements about the returned trace.
-/

/-- Python truthiness of an optional string (`os.getenv` result):
`None` and the empty string are falsy, every other string is truthy. -/
def pyTruthy : Option String → Bool
  | none => false
  | some s => !(s == "")

/-- Python `str.strip()` on the character list: drop whitespace at both ends. -/
def trimList (l : List Char) : List Char :=
  ((l.dropWhile Char.isWhitespace).reverse.dropWhile Char.isWhitespace).reverse

/-- Python `str.strip()` modelled on `String`. -/
def pyStrip (s : String) : String := String.mk (trimList s.toList)

/-- Python `str.lower()` on the character list. -/
def lowerList (l : List Char) : List Char := l.map Char.toLower

/-- Python `needle in hay` prefix test helper: does `needle` start `hay`? -/
def hasPre : List Char → List Char → Bool
  | [], _ => true
  | _ :: _, [] => false
  | a :: as, b :: bs => a == b && hasPre as bs

/-- Python substring membership `needle in hay` over character lists. -/
def subList (needle : List Char) : List Char → Bool
  | [] => hasPre needle []
  | c :: rest => hasPre needle (c :: rest) || subList needle rest

/-- Python `needle.lower() in hay.lower()` for strings. -/
def containsLower (hay needle : String) : Bool :=
  subList (lowerList needle.toList) (lowerList hay.toList)

namespace Client

/-- Observable I/O events of an authenticated client call, in program order.
`getReq url params token` is an outbound GET (`token` is the bearer token in
the `Authorization` header, `none` when the headers dict is empty);
`refreshCall` is an invocation of the token-refresh routine; `refreshPost` is
the outbound POST to the OAuth token endpoint; `save a r` is `save_token`,
which writes both tokens to `os.environ` and persists them to the `.env`
file via `set_key`. -/
inductive Event where
  | getReq (url : String) (params : Option String) (token : Option String)
  | refreshCall
  | refreshPost
  | save (access refreshTok : String)
deriving Repr, DecidableEq

/-- Count of outbound GET requests in a trace. -/
def getCount (tr : List Event) : Nat :=
  (tr.filter fun e => match e with | .getReq _ _ _ => true | _ => false).length

/-- Count of invocations of the refresh routine in a trace. -/
def refreshCallCount (tr : List Event) : Nat :=
  (tr.filter fun e => match e with | .refreshCall => true | _ => false).length

/-- Count of outbound POSTs to the token endpoint in a trace. -/
def refreshPostCount (tr : List Event) : Nat :=
  (tr.filter fun e => match e with | .refreshPost => true | _ => false).length

/-- Scripted outcome of one outbound GET: either the transport layer raised
(timeout, connection error), or a response arrived with the given status
code, a flag telling whether `r.json()` parses, and the parsed body. -/
inductive GetOutcome where
  | transportError
  | resp (status : Nat) (jsonOk : Bool) (body : String)
deriving Repr, DecidableEq

/-- Scripted outcome of the POST to the OAuth token endpoint: transport
error, or a response with a status code, a JSON-parse flag, and the
`access_token` / `refresh_token` fields of the parsed body
(`none` models an absent key, as `dict.get` returns `None`). -/
inductive RefreshOutcome where
  | transportError
  | resp (status : Nat) (jsonOk : Bool) (newAccess newRefresh : Option String)
deriving Repr, DecidableEq

/-- Credential state of one service: the OAuth client settings and the
access/refresh tokens, both in `os.environ` (`env*`) and in the durable
`.env` file (`file*`). -/
structure State where
  clientId : Option String
  clientSecret : Option String
  envAccess : Option String
  envRefresh : Option String
  fileAccess : Option String
  fileRefresh : Option String
deriving Repr, DecidableEq

/-- Result of a refresh routine: the returned flag, the credential state
after the call, and the I/O trace. -/
structure RefreshResult where
  ok : Bool
  state : State
  trace : List Event
deriving Repr, DecidableEq

/-- Result of `make_request`: the parsed body (`none` models Python `None`),
the credential state after the call, and the I/O trace. -/
structure ReqResult where
  body : Option String
  state : State
  trace : List Event
deriving Repr, DecidableEq

/-- Shared tail of `make_request` after the 401 handling: `r` is the
response in hand; `r.raise_for_status()` raises on status `>= 400`
(caught by the enclosing `try`, yielding `None`), then `r.json()` is
returned (`None` if parsing raises). A transport error on the GET already
raised inside the `try`, yielding `None`. -/
def handleFinal : GetOutcome → Option String
  | .transportError => none
  | .resp status jsonOk body =>
    if 400 ≤ status then none
    else if jsonOk then some body else none

end Client

namespace Oura

open Client

/-- Embedding of `save_token` in `src/oura.py`: write both tokens to
`os.environ` and persist both to the `.env` file. -/
def save_token (access refreshTok : String) (st : State) : State :=
  { st with
    envAccess := some access, envRefresh := some refreshTok,
    fileAccess := some access, fileRefresh := some refreshTok }

/-- Embedding of `refresh_oura_token` in `src/oura.py`.  Fails fast without
touching the network when any of client id, client secret or refresh token
is missing or empty; otherwise POSTs to the token endpoint
(`out` scripts the outcome), and only when the response passes
`raise_for_status`, parses, and carries truthy `access_token` and
`refresh_token` fields does it `save_token` both and return `True`.
Every exception is caught inside the function, which then returns `False`. -/
def refresh_oura_token (st : State) (out : RefreshOutcome) : RefreshResult :=
  if pyTruthy st.clientId && pyTruthy st.clientSecret && pyTruthy st.envRefresh then
    match out with
    | .transportError => ⟨false, st, [.refreshCall, .refreshPost]⟩
    | .resp status jsonOk a r =>
      if 400 ≤ status then ⟨false, st, [.refreshCall, .refreshPost]⟩
      else if jsonOk then
        if pyTruthy a && pyTruthy r then
          ⟨true, save_token (a.getD "") (r.getD "") st,
            [.refreshCall, .refreshPost, .save (a.getD "") (r.getD "")]⟩
        else ⟨false, st, [.refreshCall, .refreshPost]⟩
      else ⟨false, st, [.refreshCall, .refreshPost]⟩
  else ⟨false, st, [.refreshCall]⟩

/-- Embedding of `get_oura_headers` in `src/oura.py`: the bearer token used
in the `Authorization` header, or `none` when
`os.getenv("OURA_ACCESS_TOKEN", "").strip()` is empty (empty headers dict). -/
def get_oura_headers (st : State) : Option String :=
  let token := pyStrip (st.envAccess.getD "")
  if token == "" then none else some token

/-- Embedding of `make_request` in `src/oura.py`.  `g1` scripts the first
GET, `rOut` the token-endpoint POST (used only if a refresh is attempted),
`g2` the retry GET (used only if the refresh succeeds). -/
def make_request (st : State) (url : String) (params : Option String)
    (g1 : GetOutcome) (rOut : RefreshOutcome) (g2 : GetOutcome) : ReqResult :=
  match get_oura_headers st with
  | none => ⟨none, st, []⟩
  | some token =>
    match g1 with
    | .transportError => ⟨none, st, [.getReq url params (some token)]⟩
    | .resp status jsonOk body =>
      if status = 401 then
        let rr := refresh_oura_token st rOut
        if rr.ok then
          ⟨handleFinal g2, rr.state,
            .getReq url params (some token) :: rr.trace
              ++ [.getReq url params (get_oura_headers rr.state)]⟩
        else
          ⟨none, rr.state, .getReq url params (some token) :: rr.trace⟩
      else
        ⟨handleFinal (.resp status jsonOk body), st,
          [.getReq url params (some token)]⟩

end Oura

namespace Fitbit

open Client

/-- Embedding of `save_token` in `src/fitbit.py`. -/
def save_token (access refreshTok : String) (st : State) : State :=
  { st with
    envAccess := some access, envRefresh := some refreshTok,
    fileAccess := some access, fileRefresh := some refreshTok }

deriving instance DecidableEq for Except

/-- Result of `refresh_fitbit_token`: `.error ()` models the `NameError`
that escapes the function when `requests.post` itself raised (the `except`
block reads `r.text` with `r` unbound); `.ok b` is a normal return. -/
structure FitbitRefreshResult where
  outcome : Except Unit Bool
  state : State
  trace : List Event
deriving Repr, DecidableEq

/-- Embedding of `refresh_fitbit_token` in `src/fitbit.py`.  Same protocol
as the Oura variant (the Basic-auth header on the POST does not change the
observable control flow), except that on a transport error the `except`
block itself raises `NameError` (`r` unbound), which propagates to the
caller instead of returning `False`. -/
def refresh_fitbit_token (st : State) (out : RefreshOutcome) : FitbitRefreshResult :=
  if pyTruthy st.clientId && pyTruthy st.clientSecret && pyTruthy st.envRefresh then
    match out with
    | .transportError => ⟨.error (), st, [.refreshCall, .refreshPost]⟩
    | .resp status jsonOk a r =>
      if 400 ≤ status then ⟨.ok false, st, [.refreshCall, .refreshPost]⟩
      else if jsonOk then
        if pyTruthy a && pyTruthy r then
          ⟨.ok true, save_token (a.getD "") (r.getD "") st,
            [.refreshCall, .refreshPost, .save (a.getD "") (r.getD "")]⟩
        else ⟨.ok false, st, [.refreshCall, .refreshPost]⟩
      else ⟨.ok false, st, [.refreshCall, .refreshPost]⟩
  else ⟨.ok false, st, [.refreshCall]⟩

/-- Embedding of `get_fitbit_headers` in `src/fitbit.py`. -/
def get_fitbit_headers (st : State) : Option String :=
  let token := pyStrip (st.envAccess.getD "")
  if token == "" then none else some token

/-- Embedding of `make_request` in `src/fitbit.py` (no query params).  A
`NameError` escaping the refresh is caught by this function's own `try`,
yielding `None` with no retry. -/
def make_request (st : State) (url : String)
    (g1 : GetOutcome) (rOut : RefreshOutcome) (g2 : GetOutcome) : ReqResult :=
  match get_fitbit_headers st with
  | none => ⟨none, st, []⟩
  | some token =>
    match g1 with
    | .transportError => ⟨none, st, [.getReq url none (some token)]⟩
    | .resp status jsonOk body =>
      if status = 401 then
        let rr := refresh_fitbit_token st rOut
        match rr.outcome with
        | .ok true =>
          ⟨handleFinal g2, rr.state,
            .getReq url none (some token) :: rr.trace
              ++ [.getReq url none (get_fitbit_headers rr.state)]⟩
        | .ok false => ⟨none, rr.state, .getReq url none (some token) :: rr.trace⟩
        | .error _ => ⟨none, rr.state, .getReq url none (some token) :: rr.trace⟩
      else
        ⟨handleFinal (.resp status jsonOk body), st,
          [.getReq url none (some token)]⟩

end Fitbit

namespace Transport

/-- One entry of `stoptimesWithoutPatterns`, flattened along the key paths
the code reads: `trip.route.shortName` (absent key or absent `trip`/`route`
dict gives `None`), `trip.tripHeadsign` (read with default `""`), and the
two departure fields (seconds since midnight, as Python ints). -/
structure StopTime where
  routeShortName : Option String
  tripHeadsign : Option String
  realtimeDeparture : Option Int
  scheduledDeparture : Option Int
deriving Repr, DecidableEq

/-- Python `stop_time.get("realtimeDeparture") or stop_time.get("scheduledDeparture")`:
`or` falls through on falsy values, so both `None` and `0` in the realtime
field select the scheduled field. -/
def departureOf (st : StopTime) : Option Int :=
  match st.realtimeDeparture with
  | some v => if v ≠ 0 then some v else st.scheduledDeparture
  | none => st.scheduledDeparture

/-- Embedding of the matching loop of `get_next_departure_minutes`
(`src/transport.py` and `src/sources/transport.py`, identical): skip
entries whose route short name differs from `route_number` or whose
headsign does not contain `destination_keyword` (case-insensitively) or
which have no departure time; for the first match compute
`departure - current`, add `24 * 3600` if negative, truncate-divide by 60
(Python `int(time_diff / 60)`), and return it if non-negative, else keep
scanning; an exhausted list yields 0. -/
def nextDepartureLoop (routeNumber keyword : String) (current : Int) :
    List StopTime → Int
  | [] => 0
  | st :: rest =>
    if st.routeShortName ≠ some routeNumber then
      nextDepartureLoop routeNumber keyword current rest
    else if !(containsLower (st.tripHeadsign.getD "") keyword) then
      nextDepartureLoop routeNumber keyword current rest
    else
      match departureOf st with
      | none => nextDepartureLoop routeNumber keyword current rest
      | some dep =>
        let d := dep - current
        let d2 := if d < 0 then d + 24 * 3600 else d
        let minutes := Int.tdiv d2 60
        if 0 ≤ minutes then minutes
        else nextDepartureLoop routeNumber keyword current rest

/-- Scripted outcome of the GraphQL POST in `get_next_departure_minutes`:
transport error, or a response with status code, JSON-parse flag, presence
of a top-level `errors` field, and the `data.stop` value (`none` models
both a missing/null stop and a falsy `{}`), holding the stop-times list. -/
inductive ApiOutcome where
  | transportError
  | resp (status : Nat) (jsonOk : Bool) (hasErrors : Bool)
      (stop : Option (List StopTime))
deriving Repr, DecidableEq

/-- Embedding of `get_next_departure_minutes` (`src/transport.py` lines
34-118 and the identical `src/sources/transport.py` lines 34-118).
`apiKeyRaw` is the raw `DIGITRANSIT_KEY` value (the module strips it at
load), `current` is the wall clock as seconds since midnight.  Every
failure path — missing key, transport error, non-2xx status
(`raise_for_status` raises, caught by the `except`), JSON parse failure,
GraphQL `errors` field, missing stop — returns 0. -/
def get_next_departure_minutes (apiKeyRaw : Option String) (out : ApiOutcome)
    (routeNumber keyword : String) (current : Int) : Int :=
  if pyStrip (apiKeyRaw.getD "") == "" then 0
  else
    match out with
    | .transportError => 0
    | .resp status jsonOk hasErrors stop =>
      if 400 ≤ status then 0
      else if !jsonOk then 0
      else if hasErrors then 0
      else
        match stop with
        | none => 0
        | some stopTimes => nextDepartureLoop routeNumber keyword current stopTimes

/-- Python `f"{n:02}"` for the hour/minute fields: left-pad with a zero to
width two. -/
def pad2 (n : Int) : String :=
  if 0 ≤ n ∧ n < 10 then "0" ++ toString n else toString n

/-- Embedding of the departure-time formatting in
`get_next_departures_formatted` (`src/transport.py` lines 193-196):
`hours = (departure_time // 3600) % 24`, `minutes = (departure_time % 3600) // 60`,
rendered as a zero-padded `HH:MM` string.  Python `//` and `%` are floor
division and floor modulus, i.e. `Int.ediv` and `Int.emod`. -/
def formatHHMM (t : Int) : String :=
  let hours := (t.ediv 3600).emod 24
  let minutes := (t.emod 3600).ediv 60
  pad2 hours ++ ":" ++ pad2 minutes

end Transport

namespace App

/-- One element of the `byType` array: the vehicle count and the
`vehicleType.formFactor` string (either may be absent/null). -/
structure ByTypeItem where
  count : Option Int
  formFactor : Option String
deriving Repr, DecidableEq

/-- Embedding of `sum_bicycles` in `src/app.py`: over the `byType` array of
a (possibly absent) `availableVehicles` section, sum `int(item.get("count") or 0)`
for items whose form factor is `"BICYCLE"`. -/
def sum_bicycles (sec : Option (List ByTypeItem)) : Int :=
  (sec.getD []).foldl
    (fun total item =>
      if item.formFactor = some "BICYCLE" then total + (item.count.getD 0)
      else total)
    0

/-- One station object of the GraphQL response: its (possibly absent) name
and its `availableVehicles.byType` array. -/
structure Station where
  name : Option String
  availableVehicles : Option (List ByTypeItem)
deriving Repr, DecidableEq

/-- Scripted outcome of the GraphQL POST in `fetch_bike_counts`: transport
error, or a response with status code, JSON-parse flag, presence of a
top-level `errors` field, and the two station objects (`none` models a
missing/null station). -/
inductive BikeOutcome where
  | transportError
  | resp (status : Nat) (jsonOk : Bool) (hasErrors : Bool)
      (poh kos : Option Station)
deriving Repr, DecidableEq

/-- Return value of `fetch_bike_counts`: the four extracted fields. -/
structure BikeCounts where
  pohName : String
  pohBikes : Int
  kosName : String
  kosBikes : Int
deriving Repr, DecidableEq

/-- Outcome of `fetch_bike_counts`: the counts dict, or a raised exception
with its message. -/
inductive FetchResult where
  | ok (c : BikeCounts)
  | err (msg : String)
deriving Repr, DecidableEq

/-- Embedding of `fetch_bike_counts` in `src/app.py`.  Raises (as `.err`)
when the stripped `DIGITRANSIT_KEY` is empty, the transport layer raises,
the status is 401 (explicit raise) or otherwise `>= 400`
(`raise_for_status`), the body does not parse, or the payload has an
`errors` field; otherwise extracts names (with literal defaults) and the
two bicycle sums. -/
def fetch_bike_counts (apiKeyRaw : Option String) (out : BikeOutcome) : FetchResult :=
  if pyStrip (apiKeyRaw.getD "") == "" then
    .err "Missing DIGITRANSIT_KEY in environment/.env"
  else
    match out with
    | .transportError => .err "transport error"
    | .resp status jsonOk hasErrors poh kos =>
      if status = 401 then
        .err "Digitransit 401 Unauthorized - check DIGITRANSIT_KEY"
      else if 400 ≤ status then .err "http error"
      else if !jsonOk then .err "invalid json"
      else if hasErrors then .err "GraphQL error"
      else
        let p := poh.getD ⟨none, none⟩
        let k := kos.getD ⟨none, none⟩
        .ok
          { pohName := p.name.getD "Pohjolankatu"
            pohBikes := sum_bicycles p.availableVehicles
            kosName := k.name.getD "Koskelantie"
            kosBikes := sum_bicycles k.availableVehicles }

/-- Body of the `/` response: either the error object built in the
`except` branch, or the flattened dashboard payload (the non-bike metrics
are the literal placeholder constants of `src/app.py`, the two decimal
ones kept as exact rationals). -/
inductive RootBody where
  | error (msg : String)
  | payload (biked_km : Rat) (pohBikes kosBikes : Int) (steps : Int)
      (activity_percentage : Int) (readiness : Int) (sleep_time : Rat)
      (sleep_score : Int) (calories_intake : Int) (calories_consumed : Int)
deriving Repr, DecidableEq

/-- Embedding of `root_custom_json` in `src/app.py`: on any exception from
`fetch_bike_counts`, return the error body with HTTP status 502; otherwise
return the dashboard payload with status 200 (`jsonify` default). -/
def root_custom_json (apiKeyRaw : Option String) (out : BikeOutcome) :
    RootBody × Nat :=
  match fetch_bike_counts apiKeyRaw out with
  | .err msg => (.error msg, 502)
  | .ok c =>
    (.payload (63/10) c.pohBikes c.kosBikes 7421 91 83 (742/100) 79 2232 2532, 200)

end App

namespace SleepFmt

/-- Modelled from the spec: the sleep-duration formatter (seconds to the
string "H h M min") is not present under `src/` — only the Oura fetcher
that produces `total_sleep_duration` is.  Per spec section 8, the mapping
uses integer division with no rounding of the minutes:
hours `s / 3600`, minutes `(s % 3600) / 60`, rendered "H h M min". -/
def format_sleep_duration (s : Nat) : String :=
  toString (s / 3600) ++ " h " ++ toString ((s % 3600) / 60) ++ " min"

end SleepFmt

lemma pyTruthy_iff (o : Option String) :
    pyTruthy o = true ↔ ∃ s, o = some s ∧ s ≠ "" := by
  cases o <;> simp [pyTruthy]

namespace Oura

open Client

/-- Every run of the Oura refresh either fails with the credential state
untouched (and no `save` event), or succeeds having saved a pair of
non-empty tokens. -/
lemma oura_refresh_shape (st : State) (out : RefreshOutcome) :
    ((refresh_oura_token st out).ok = false ∧
      (refresh_oura_token st out).state = st ∧
      ((refresh_oura_token st out).trace = [.refreshCall] ∨
        (refresh_oura_token st out).trace = [.refreshCall, .refreshPost])) ∨
    (∃ a r, a ≠ "" ∧ r ≠ "" ∧
      refresh_oura_token st out =
        ⟨true, save_token a r st, [.refreshCall, .refreshPost, .save a r]⟩) := by
  cases out with
  | transportError =>
    simp only [refresh_oura_token]
    split_ifs
    · exact Or.inl ⟨rfl, rfl, Or.inr rfl⟩
    · exact Or.inl ⟨rfl, rfl, Or.inl rfl⟩
  | resp status jsonOk a r =>
    simp only [refresh_oura_token]
    split_ifs with h1 h2 h3 h4
    · exact Or.inl ⟨rfl, rfl, Or.inr rfl⟩
    · rw [Bool.and_eq_true] at h4
      obtain ⟨hta, htr'⟩ := h4
      obtain ⟨a', ha, hane⟩ := (pyTruthy_iff a).mp hta
      obtain ⟨r', hr, hrne⟩ := (pyTruthy_iff r).mp htr'
      subst ha; subst hr
      exact Or.inr ⟨a', r', hane, hrne, rfl⟩
    · exact Or.inl ⟨rfl, rfl, Or.inr rfl⟩
    · exact Or.inl ⟨rfl, rfl, Or.inr rfl⟩
    · exact Or.inl ⟨rfl, rfl, Or.inl rfl⟩

/-- Unfolding of `make_request` when the headers are present and the first
GET came back 401. -/
lemma oura_make_request_on_401 (st : State) (url : String) (params : Option String)
    (tok : String) (j : Bool) (b : String) (rOut : RefreshOutcome)
    (g2 : GetOutcome) (h : get_oura_headers st = some tok) :
    make_request st url params (.resp 401 j b) rOut g2 =
      if (refresh_oura_token st rOut).ok then
        ⟨handleFinal g2, (refresh_oura_token st rOut).state,
          .getReq url params (some tok) :: (refresh_oura_token st rOut).trace
            ++ [.getReq url params (get_oura_headers (refresh_oura_token st rOut).state)]⟩
      else
        ⟨none, (refresh_oura_token st rOut).state,
          .getReq url params (some tok) :: (refresh_oura_token st rOut).trace⟩ := by
  unfold make_request
  rw [h]
  simp

end Oura

namespace Fitbit

open Client

/-- Every run of the Fitbit refresh either does not succeed (normal `False`
return or the escaping `NameError`) with the credential state untouched and
no `save` event, or succeeds having saved a pair of non-empty tokens. -/
lemma fitbit_refresh_shape (st : State) (out : RefreshOutcome) :
    ((refresh_fitbit_token st out).outcome ≠ .ok true ∧
      (refresh_fitbit_token st out).state = st ∧
      ((refresh_fitbit_token st out).trace = [.refreshCall] ∨
        (refresh_fitbit_token st out).trace = [.refreshCall, .refreshPost])) ∨
    (∃ a r, a ≠ "" ∧ r ≠ "" ∧
      refresh_fitbit_token st out =
        ⟨.ok true, save_token a r st, [.refreshCall, .refreshPost, .save a r]⟩) := by
  cases out with
  | transportError =>
    simp only [refresh_fitbit_token]
    split_ifs
    · exact Or.inl ⟨by simp, rfl, Or.inr rfl⟩
    · exact Or.inl ⟨by simp, rfl, Or.inl rfl⟩
  | resp status jsonOk a r =>
    simp only [refresh_fitbit_token]
    split_ifs with h1 h2 h3 h4
    · exact Or.inl ⟨by simp, rfl, Or.inr rfl⟩
    · rw [Bool.and_eq_true] at h4
      obtain ⟨hta, htr'⟩ := h4
      obtain ⟨a', ha, hane⟩ := (pyTruthy_iff a).mp hta
      obtain ⟨r', hr, hrne⟩ := (pyTruthy_iff r).mp htr'
      subst ha; subst hr
      exact Or.inr ⟨a', r', hane, hrne, rfl⟩
    · exact Or.inl ⟨by simp, rfl, Or.inr rfl⟩
    · exact Or.inl ⟨by simp, rfl, Or.inr rfl⟩
    · exact Or.inl ⟨by simp, rfl, Or.inl rfl⟩

/-- Unfolding of `make_request` when the headers are present and the first
GET came back 401. -/
lemma fitbit_make_request_on_401 (st : State) (url : String)
    (tok : String) (j : Bool) (b : String) (rOut : RefreshOutcome)
    (g2 : GetOutcome) (h : get_fitbit_headers st = some tok) :
    make_request st url (.resp 401 j b) rOut g2 =
      (if (refresh_fitbit_token st rOut).outcome = .ok true then
        ⟨handleFinal g2, (refresh_fitbit_token st rOut).state,
          .getReq url none (some tok) :: (refresh_fitbit_token st rOut).trace
            ++ [.getReq url none (get_fitbit_headers (refresh_fitbit_token st rOut).state)]⟩
      else
        ⟨none, (refresh_fitbit_token st rOut).state,
          .getReq url none (some tok) :: (refresh_fitbit_token st rOut).trace⟩ : ReqResult) := by
  unfold make_request
  rw [h]
  rcases hh : (refresh_fitbit_token st rOut).outcome with e | b2
  · cases e
    simp [hh]
  · cases b2 <;> simp [hh]

end Fitbit

namespace Oura

open Client

/-- Over all scripted outcomes, one `make_request` call invokes the refresh
routine at most once, POSTs to the token endpoint at most once, and issues
at most two GETs. -/
lemma oura_trace_bound (st : State) (url : String) (params : Option String)
    (g1 : GetOutcome) (rOut : RefreshOutcome) (g2 : GetOutcome) :
    refreshCallCount (make_request st url params g1 rOut g2).trace ≤ 1 ∧
    refreshPostCount (make_request st url params g1 rOut g2).trace ≤ 1 ∧
    getCount (make_request st url params g1 rOut g2).trace ≤ 2 := by
  rcases hh : get_oura_headers st with _ | tok
  · unfold make_request
    rw [hh]
    simp [refreshCallCount, refreshPostCount, getCount]
  · cases g1 with
    | transportError =>
      unfold make_request
      rw [hh]
      simp [refreshCallCount, refreshPostCount, getCount, List.filter]
    | resp status j b =>
      by_cases hs : status = 401
      · subst hs
        rw [oura_make_request_on_401 st url params tok j b rOut g2 hh]
        rcases oura_refresh_shape st rOut with ⟨hok, _, htr | htr⟩ | ⟨a, r, _, _, heq⟩
        · rw [if_neg (by simp [hok]), htr]
          simp [refreshCallCount, refreshPostCount, getCount, List.filter]
        · rw [if_neg (by simp [hok]), htr]
          simp [refreshCallCount, refreshPostCount, getCount, List.filter]
        · rw [heq]
          simp [refreshCallCount, refreshPostCount, getCount, List.filter]
      · unfold make_request
        rw [hh]
        simp [refreshCallCount, refreshPostCount, getCount, List.filter, hs]

end Oura

namespace Fitbit

open Client

/-- Over all scripted outcomes, one `make_request` call invokes the refresh
routine at most once, POSTs to the token endpoint at most once, and issues
at most two GETs. -/
lemma fitbit_trace_bound (st : State) (url : String)
    (g1 : GetOutcome) (rOut : RefreshOutcome) (g2 : GetOutcome) :
    refreshCallCount (make_request st url g1 rOut g2).trace ≤ 1 ∧
    refreshPostCount (make_request st url g1 rOut g2).trace ≤ 1 ∧
    getCount (make_request st url g1 rOut g2).trace ≤ 2 := by
  rcases hh : get_fitbit_headers st with _ | tok
  · unfold make_request
    rw [hh]
    simp [refreshCallCount, refreshPostCount, getCount]
  · cases g1 with
    | transportError =>
      unfold make_request
      rw [hh]
      simp [refreshCallCount, refreshPostCount, getCount, List.filter]
    | resp status j b =>
      by_cases hs : status = 401
      · subst hs
        rw [fitbit_make_request_on_401 st url tok j b rOut g2 hh]
        rcases fitbit_refresh_shape st rOut with ⟨hok, _, htr | htr⟩ | ⟨a, r, _, _, heq⟩
        · rw [if_neg hok, htr]
          simp [refreshCallCount, refreshPostCount, getCount, List.filter]
        · rw [if_neg hok, htr]
          simp [refreshCallCount, refreshPostCount, getCount, List.filter]
        · rw [heq]
          simp [refreshCallCount, refreshPostCount, getCount, List.filter]
      · unfold make_request
        rw [hh]
        simp [refreshCallCount, refreshPostCount, getCount, List.filter, hs]

end Fitbit

/-- C1: for every `make_request` call with an access token configured whose
first GET returns 401, the refresh routine is invoked exactly once; if the
refresh succeeds the same GET (same url, same params) is reissued exactly
once (two outbound GETs, one token-endpoint POST in total) and the retry's
outcome is returned; if the refresh fails the call returns `None` with one
outbound GET and no retry; and over all scripted outcomes no call ever
performs more than one refresh attempt or more than two GETs.  Stated for
the Oura client (`src/oura.py`) and the Fitbit client (`src/fitbit.py`). -/
theorem c1_single_refresh_single_retry :
    (∀ st url params tok j b rOut g2,
      Oura.get_oura_headers st = some tok →
      Client.refreshCallCount (Oura.make_request st url params (.resp 401 j b) rOut g2).trace = 1 ∧
      ((Oura.refresh_oura_token st rOut).ok = true →
        Client.getCount (Oura.make_request st url params (.resp 401 j b) rOut g2).trace = 2 ∧
        Client.refreshPostCount (Oura.make_request st url params (.resp 401 j b) rOut g2).trace = 1 ∧
        (Oura.make_request st url params (.resp 401 j b) rOut g2).body = Client.handleFinal g2 ∧
        ∃ a r tok2,
          (Oura.make_request st url params (.resp 401 j b) rOut g2).trace =
            [Client.Event.getReq url params (some tok), Client.Event.refreshCall,
              Client.Event.refreshPost, Client.Event.save a r,
              Client.Event.getReq url params tok2]) ∧
      ((Oura.refresh_oura_token st rOut).ok = false →
        Client.getCount (Oura.make_request st url params (.resp 401 j b) rOut g2).trace = 1 ∧
        Client.refreshPostCount (Oura.make_request st url params (.resp 401 j b) rOut g2).trace ≤ 1 ∧
        (Oura.make_request st url params (.resp 401 j b) rOut g2).body = none)) ∧
    (∀ st url params g1 rOut g2,
      Client.refreshCallCount (Oura.make_request st url params g1 rOut g2).trace ≤ 1 ∧
      Client.getCount (Oura.make_request st url params g1 rOut g2).trace ≤ 2) ∧
    (∀ st url tok j b rOut g2,
      Fitbit.get_fitbit_headers st = some tok →
      Client.refreshCallCount (Fitbit.make_request st url (.resp 401 j b) rOut g2).trace = 1 ∧
      ((Fitbit.refresh_fitbit_token st rOut).outcome = Except.ok true →
        Client.getCount (Fitbit.make_request st url (.resp 401 j b) rOut g2).trace = 2 ∧
        Client.refreshPostCount (Fitbit.make_request st url (.resp 401 j b) rOut g2).trace = 1 ∧
        (Fitbit.make_request st url (.resp 401 j b) rOut g2).body = Client.handleFinal g2) ∧
      ((Fitbit.refresh_fitbit_token st rOut).outcome ≠ Except.ok true →
        Client.getCount (Fitbit.make_request st url (.resp 401 j b) rOut g2).trace = 1 ∧
        (Fitbit.make_request st url (.resp 401 j b) rOut g2).body = none)) ∧
    (∀ st url g1 rOut g2,
      Client.refreshCallCount (Fitbit.make_request st url g1 rOut g2).trace ≤ 1 ∧
      Client.getCount (Fitbit.make_request st url g1 rOut g2).trace ≤ 2) := by
  refine ⟨?_, ?_, ?_, ?_⟩
  · intro st url params tok j b rOut g2 hh
    rw [Oura.oura_make_request_on_401 st url params tok j b rOut g2 hh]
    rcases Oura.oura_refresh_shape st rOut with ⟨hok, hst, htr | htr⟩ | ⟨a, r, ha, hr, heq⟩
    · rw [if_neg (by simp [hok]), htr]
      refine ⟨rfl, ?_, fun _ => ⟨rfl, by simp [Client.refreshPostCount, List.filter], rfl⟩⟩
      intro hOk
      rw [hok] at hOk
      exact absurd hOk (by decide)
    · rw [if_neg (by simp [hok]), htr]
      refine ⟨rfl, ?_, fun _ => ⟨rfl, by simp [Client.refreshPostCount, List.filter], rfl⟩⟩
      intro hOk
      rw [hok] at hOk
      exact absurd hOk (by decide)
    · rw [heq]
      refine ⟨rfl, fun _ => ⟨rfl, rfl, rfl, a, r, _, rfl⟩, ?_⟩
      intro hOk
      simp at hOk
  · intro st url params g1 rOut g2
    exact ⟨(Oura.oura_trace_bound st url params g1 rOut g2).1,
      (Oura.oura_trace_bound st url params g1 rOut g2).2.2⟩
  · intro st url tok j b rOut g2 hh
    rw [Fitbit.fitbit_make_request_on_401 st url tok j b rOut g2 hh]
    rcases Fitbit.fitbit_refresh_shape st rOut with ⟨hok, hst, htr | htr⟩ | ⟨a, r, ha, hr, heq⟩
    · rw [if_neg hok, htr]
      exact ⟨rfl, fun hOk => absurd hOk hok, fun _ => ⟨rfl, rfl⟩⟩
    · rw [if_neg hok, htr]
      exact ⟨rfl, fun hOk => absurd hOk hok, fun _ => ⟨rfl, rfl⟩⟩
    · rw [heq]
      refine ⟨rfl, fun _ => ⟨rfl, rfl, rfl⟩, ?_⟩
      intro hOk
      exact absurd rfl hOk
  · intro st url g1 rOut g2
    exact ⟨(Fitbit.fitbit_trace_bound st url g1 rOut g2).1,
      (Fitbit.fitbit_trace_bound st url g1 rOut g2).2.2⟩

/-- Witness for C1: a concrete Oura call with a configured token and a 401
first response invokes the refresh routine exactly once. -/
theorem c1_single_refresh_single_retry_witness :
    Client.refreshCallCount
      (Oura.make_request ⟨some "id", some "sec", some "tok", some "ref", none, none⟩
        "u" none (.resp 401 true "B") (.resp 200 true (some "na") (some "nr"))
        (.resp 200 true "ok")).trace = 1 :=
  (c1_single_refresh_single_retry.1
    ⟨some "id", some "sec", some "tok", some "ref", none, none⟩
    "u" none "tok" true "B" (.resp 200 true (some "na") (some "nr"))
    (.resp 200 true "ok") (by decide)).1

/-- C2: in every Oura `make_request` execution where the first GET returns
401 and the token refresh succeeds, both new tokens are written by
`save_token` to the process environment and to the durable `.env` file
(the `save` event, and the `file*`/`env*` fields of the final state), and
in the returned trace the `save` event occurs strictly before the retry
GET (position 3 versus position 4 of the five-event trace). -/
theorem c2_tokens_persisted_before_retry :
    ∀ st url params tok j b rOut g2,
      Oura.get_oura_headers st = some tok →
      (Oura.refresh_oura_token st rOut).ok = true →
      ∃ a r, a ≠ "" ∧ r ≠ "" ∧
        (Oura.make_request st url params (.resp 401 j b) rOut g2).trace =
          [Client.Event.getReq url params (some tok), Client.Event.refreshCall,
            Client.Event.refreshPost, Client.Event.save a r,
            Client.Event.getReq url params
              (Oura.get_oura_headers (Oura.save_token a r st))] ∧
        (Oura.make_request st url params (.resp 401 j b) rOut g2).state =
          Oura.save_token a r st ∧
        (Oura.save_token a r st).fileAccess = some a ∧
        (Oura.save_token a r st).fileRefresh = some r ∧
        (Oura.save_token a r st).envAccess = some a ∧
        (Oura.save_token a r st).envRefresh = some r := by
  intro st url params tok j b rOut g2 hh hOk
  rw [Oura.oura_make_request_on_401 st url params tok j b rOut g2 hh]
  rcases Oura.oura_refresh_shape st rOut with ⟨hok, hst, htr⟩ | ⟨a, r, ha, hr, heq⟩
  · rw [hok] at hOk
    exact absurd hOk (by decide)
  · rw [heq]
    exact ⟨a, r, ha, hr, rfl, rfl, rfl, rfl, rfl, rfl⟩

/-- Witness for C2: a concrete 401-then-successful-refresh run persists the
new token pair before the retry GET. -/
theorem c2_tokens_persisted_before_retry_witness :
    ∃ a r, a ≠ "" ∧ r ≠ "" ∧
      (Oura.make_request ⟨some "id", some "sec", some "tok", some "ref", none, none⟩
        "u" none (.resp 401 true "B") (.resp 200 true (some "na") (some "nr"))
        (.resp 200 true "ok")).trace =
        [Client.Event.getReq "u" none (some "tok"), Client.Event.refreshCall,
          Client.Event.refreshPost, Client.Event.save a r,
          Client.Event.getReq "u" none
            (Oura.get_oura_headers
              (Oura.save_token a r ⟨some "id", some "sec", some "tok", some "ref", none, none⟩))] ∧
      (Oura.make_request ⟨some "id", some "sec", some "tok", some "ref", none, none⟩
        "u" none (.resp 401 true "B") (.resp 200 true (some "na") (some "nr"))
        (.resp 200 true "ok")).state =
        Oura.save_token a r ⟨some "id", some "sec", some "tok", some "ref", none, none⟩ ∧
      (Oura.save_token a r ⟨some "id", some "sec", some "tok", some "ref", none, none⟩).fileAccess = some a ∧
      (Oura.save_token a r ⟨some "id", some "sec", some "tok", some "ref", none, none⟩).fileRefresh = some r ∧
      (Oura.save_token a r ⟨some "id", some "sec", some "tok", some "ref", none, none⟩).envAccess = some a ∧
      (Oura.save_token a r ⟨some "id", some "sec", some "tok", some "ref", none, none⟩).envRefresh = some r :=
  c2_tokens_persisted_before_retry
    ⟨some "id", some "sec", some "tok", some "ref", none, none⟩
    "u" none "tok" true "B" (.resp 200 true (some "na") (some "nr"))
    (.resp 200 true "ok") (by decide) (by decide)

/-- C3: whenever a refresh operation fails — for any scripted reason
(missing credentials, transport error, non-2xx token-endpoint status,
unparseable body, or a body missing either token) — the credential record
(environment and `.env` file fields alike) is left completely unchanged;
it is mutated only on success, and then by saving a non-empty access token
and a non-empty refresh token together.  Stated for `refresh_oura_token`
and `refresh_fitbit_token`. -/
theorem c3_failed_refresh_leaves_record_unchanged :
    (∀ st out,
      ((Oura.refresh_oura_token st out).ok = false →
        (Oura.refresh_oura_token st out).state = st) ∧
      ((Oura.refresh_oura_token st out).ok = true →
        ∃ a r, a ≠ "" ∧ r ≠ "" ∧
          (Oura.refresh_oura_token st out).state = Oura.save_token a r st)) ∧
    (∀ st out,
      ((Fitbit.refresh_fitbit_token st out).outcome ≠ Except.ok true →
        (Fitbit.refresh_fitbit_token st out).state = st) ∧
      ((Fitbit.refresh_fitbit_token st out).outcome = Except.ok true →
        ∃ a r, a ≠ "" ∧ r ≠ "" ∧
          (Fitbit.refresh_fitbit_token st out).state = Fitbit.save_token a r st)) := by
  constructor
  · intro st out
    rcases Oura.oura_refresh_shape st out with ⟨hok, hst, _⟩ | ⟨a, r, ha, hr, heq⟩
    · refine ⟨fun _ => hst, fun hOk => ?_⟩
      rw [hok] at hOk
      exact absurd hOk (by decide)
    · rw [heq]
      refine ⟨fun hOk => ?_, fun _ => ⟨a, r, ha, hr, rfl⟩⟩
      simp at hOk
  · intro st out
    rcases Fitbit.fitbit_refresh_shape st out with ⟨hok, hst, _⟩ | ⟨a, r, ha, hr, heq⟩
    · exact ⟨fun _ => hst, fun hOk => absurd hOk hok⟩
    · rw [heq]
      exact ⟨fun hne => absurd rfl hne, fun _ => ⟨a, r, ha, hr, rfl⟩⟩

/-- Witness for C3: a concrete failing Oura refresh (token endpoint answers
500) leaves the credential record exactly as it was. -/
theorem c3_failed_refresh_leaves_record_unchanged_witness :
    (Oura.refresh_oura_token ⟨some "id", some "sec", some "tok", some "ref", none, none⟩
      (.resp 500 true (some "na") (some "nr"))).state =
      ⟨some "id", some "sec", some "tok", some "ref", none, none⟩ :=
  (c3_failed_refresh_leaves_record_unchanged.1
    ⟨some "id", some "sec", some "tok", some "ref", none, none⟩
    (.resp 500 true (some "na") (some "nr"))).1 (by decide)

/-- C4: with credentials configured and a token-endpoint response that
passes `raise_for_status` (status below 400) and parses, the refresh
succeeds if and only if the parsed body carries both a truthy (present and
non-empty) access token and a truthy refresh token; in particular a 2xx
body with only an access token is a failure.  Stated for
`refresh_oura_token` and `refresh_fitbit_token`. -/
theorem c4_refresh_success_iff_both_tokens :
    (∀ st status a r,
      (pyTruthy st.clientId && pyTruthy st.clientSecret && pyTruthy st.envRefresh) = true →
      status < 400 →
      ((Oura.refresh_oura_token st (.resp status true a r)).ok = true ↔
        pyTruthy a = true ∧ pyTruthy r = true)) ∧
    (∀ st status a r,
      (pyTruthy st.clientId && pyTruthy st.clientSecret && pyTruthy st.envRefresh) = true →
      status < 400 →
      ((Fitbit.refresh_fitbit_token st (.resp status true a r)).outcome = Except.ok true ↔
        pyTruthy a = true ∧ pyTruthy r = true)) := by
  constructor
  · intro st status a r hc hs
    simp only [Oura.refresh_oura_token, hc, if_true]
    rw [if_neg (by omega : ¬ 400 ≤ status)]
    split_ifs with h
    · simpa using Bool.and_eq_true .. ▸ h
    · constructor
      · intro hOk
        exact absurd hOk (by decide)
      · intro hb
        exact absurd (by simp [hb.1, hb.2]) h
  · intro st status a r hc hs
    simp only [Fitbit.refresh_fitbit_token, hc, if_true]
    rw [if_neg (by omega : ¬ 400 ≤ status)]
    split_ifs with h
    · simpa using Bool.and_eq_true .. ▸ h
    · constructor
      · intro hOk
        exact absurd hOk (by simp)
      · intro hb
        exact absurd (by simp [hb.1, hb.2]) h

/-- Witness for C4: a concrete 200 response whose body carries only an
access token and no refresh token does not count as success. -/
theorem c4_refresh_success_iff_both_tokens_witness :
    (Oura.refresh_oura_token ⟨some "id", some "sec", some "tok", some "ref", none, none⟩
      (.resp 200 true (some "newAccess") none)).ok = true ↔
      pyTruthy (some "newAccess") = true ∧ pyTruthy none = true :=
  c4_refresh_success_iff_both_tokens.1
    ⟨some "id", some "sec", some "tok", some "ref", none, none⟩
    200 (some "newAccess") none (by decide) (by decide)

/-- C5: when the stored access token is absent or whitespace-only (empty
after `strip()`), `make_request` returns `None` at once, leaves the state
untouched, and its trace is empty — no GET, no refresh call, no POST.
Stated for the Oura client and the Fitbit client. -/
theorem c5_no_token_fails_without_io :
    (∀ st url params g1 rOut g2,
      pyStrip (st.envAccess.getD "") = "" →
      Oura.make_request st url params g1 rOut g2 = ⟨none, st, []⟩) ∧
    (∀ st url g1 rOut g2,
      pyStrip (st.envAccess.getD "") = "" →
      Fitbit.make_request st url g1 rOut g2 = ⟨none, st, []⟩) := by
  constructor
  · intro st url params g1 rOut g2 h
    have hh : Oura.get_oura_headers st = none := by
      simp [Oura.get_oura_headers, h]
    unfold Oura.make_request
    rw [hh]
  · intro st url g1 rOut g2 h
    have hh : Fitbit.get_fitbit_headers st = none := by
      simp [Fitbit.get_fitbit_headers, h]
    unfold Fitbit.make_request
    rw [hh]

/-- Witness for C5: a concrete call with a whitespace-only stored access
token performs no I/O and returns `None`. -/
theorem c5_no_token_fails_without_io_witness :
    Oura.make_request ⟨some "id", some "sec", some "  ", some "ref", none, none⟩
      "u" none (.resp 200 true "B") (.resp 200 true (some "na") (some "nr"))
      (.resp 200 true "ok") =
      ⟨none, ⟨some "id", some "sec", some "  ", some "ref", none, none⟩, []⟩ :=
  c5_no_token_fails_without_io.1
    ⟨some "id", some "sec", some "  ", some "ref", none, none⟩
    "u" none (.resp 200 true "B") (.resp 200 true (some "na") (some "nr"))
    (.resp 200 true "ok") (by decide)

/-- C6: when at least one of client id, client secret, or the current
refresh token is missing or empty, the refresh operation returns failure
immediately with the state untouched and a trace containing no
token-endpoint POST.  Stated for `refresh_oura_token` and
`refresh_fitbit_token`. -/
theorem c6_missing_credentials_no_post :
    (∀ st out,
      pyTruthy st.clientId = false ∨ pyTruthy st.clientSecret = false ∨
        pyTruthy st.envRefresh = false →
      Oura.refresh_oura_token st out = ⟨false, st, [Client.Event.refreshCall]⟩ ∧
      Client.refreshPostCount (Oura.refresh_oura_token st out).trace = 0) ∧
    (∀ st out,
      pyTruthy st.clientId = false ∨ pyTruthy st.clientSecret = false ∨
        pyTruthy st.envRefresh = false →
      Fitbit.refresh_fitbit_token st out = ⟨.ok false, st, [Client.Event.refreshCall]⟩ ∧
      Client.refreshPostCount (Fitbit.refresh_fitbit_token st out).trace = 0) := by
  constructor
  · intro st out h
    have hc : (pyTruthy st.clientId && pyTruthy st.clientSecret &&
        pyTruthy st.envRefresh) = false := by
      rcases h with h | h | h <;> simp [h]
    have he : Oura.refresh_oura_token st out = ⟨false, st, [Client.Event.refreshCall]⟩ := by
      unfold Oura.refresh_oura_token
      simp [hc]
    rw [he]
    exact ⟨rfl, rfl⟩
  · intro st out h
    have hc : (pyTruthy st.clientId && pyTruthy st.clientSecret &&
        pyTruthy st.envRefresh) = false := by
      rcases h with h | h | h <;> simp [h]
    have he : Fitbit.refresh_fitbit_token st out = ⟨.ok false, st, [Client.Event.refreshCall]⟩ := by
      unfold Fitbit.refresh_fitbit_token
      simp [hc]
    rw [he]
    exact ⟨rfl, rfl⟩

/-- Witness for C6: a concrete refresh with no client secret configured
fails at once and never touches the token endpoint. -/
theorem c6_missing_credentials_no_post_witness :
    Oura.refresh_oura_token ⟨some "id", none, some "tok", some "ref", none, none⟩
      (.resp 200 true (some "na") (some "nr")) =
      ⟨false, ⟨some "id", none, some "tok", some "ref", none, none⟩,
        [Client.Event.refreshCall]⟩ ∧
    Client.refreshPostCount
      (Oura.refresh_oura_token ⟨some "id", none, some "tok", some "ref", none, none⟩
        (.resp 200 true (some "na") (some "nr"))).trace = 0 :=
  c6_missing_credentials_no_post.1
    ⟨some "id", none, some "tok", some "ref", none, none⟩
    (.resp 200 true (some "na") (some "nr")) (Or.inr (Or.inl (by decide)))

namespace Transport

/-- The matching loop never returns a negative value: a minute count is
returned only under its own `0 ≤ minutes` guard, and every other path
falls through to 0. -/
lemma loop_nonneg (routeNumber keyword : String) (current : Int) :
    ∀ l, 0 ≤ nextDepartureLoop routeNumber keyword current l := by
  intro l
  induction l with
  | nil => exact le_refl 0
  | cons st rest ih =>
    unfold nextDepartureLoop
    split_ifs with h1 h2
    · exact ih
    · exact ih
    · cases hd : departureOf st with
      | none => exact ih
      | some dep =>
        dsimp only
        split_ifs with h3 h4 h5
        · exact h4
        · exact ih
        · exact h5
        · exact ih

end Transport

/-- C7: every failure of the bike-count fetch — missing API key, transport
error, 401, any other non-2xx status, unparseable body, or a GraphQL
`errors` field — turns the whole `/` response into an error body with HTTP
status 502, while a successful fetch yields status 200 with the remaining
metrics filled from placeholders; by contrast the transport fetcher
converts every failure of its own into the placeholder value 0 without
affecting the response. -/
theorem c7_bike_failure_aborts_response :
    (∀ key out msg, App.fetch_bike_counts key out = .err msg →
      App.root_custom_json key out = (.error msg, 502)) ∧
    (∀ key out c, App.fetch_bike_counts key out = .ok c →
      (App.root_custom_json key out).2 = 200) ∧
    (∀ out, App.fetch_bike_counts none out =
      .err "Missing DIGITRANSIT_KEY in environment/.env") ∧
    (∀ key status j errs poh kos,
      status = 401 ∨ 400 ≤ status ∨ j = false ∨ errs = true →
      ∃ msg, App.fetch_bike_counts key (.resp status j errs poh kos) = .err msg) ∧
    (∀ key route kw current,
      Transport.get_next_departure_minutes key .transportError route kw current = 0) ∧
    (∀ key status j errs stop route kw current,
      400 ≤ status ∨ j = false ∨ errs = true →
      Transport.get_next_departure_minutes key (.resp status j errs stop)
        route kw current = 0) := by
  refine ⟨?_, ?_, ?_, ?_, ?_, ?_⟩
  · intro key out msg h
    unfold App.root_custom_json
    rw [h]
  · intro key out c h
    unfold App.root_custom_json
    rw [h]
  · intro out
    rfl
  · intro key status j errs poh kos h
    unfold App.fetch_bike_counts
    split_ifs with h1
    · exact ⟨_, rfl⟩
    · dsimp only
      split_ifs with h2 h3 h4 h5
      · exact ⟨_, rfl⟩
      · exact ⟨_, rfl⟩
      · exact ⟨_, rfl⟩
      · exact ⟨_, rfl⟩
      · rcases h with h | h | h <;> simp_all
  · intro key route kw current
    unfold Transport.get_next_departure_minutes
    split_ifs <;> rfl
  · intro key status j errs stop route kw current h
    unfold Transport.get_next_departure_minutes
    split_ifs with h1
    · rfl
    · dsimp only
      split_ifs with h2 h3 h4
      · rfl
      · rfl
      · rfl
      · rcases h with h | h | h <;> simp_all

/-- Witness for C7: with an API key configured, a GraphQL-errors response
makes the whole `/` response a 502. -/
theorem c7_bike_failure_aborts_response_witness :
    ∃ msg, App.fetch_bike_counts (some "key")
      (.resp 200 true true none none) = .err msg :=
  c7_bike_failure_aborts_response.2.2.2.1 (some "key") 200 true true none none
    (Or.inr (Or.inr (Or.inr rfl)))

/-- C8: the departure-time formatting of `get_next_departures_formatted`
computes `hours = (t // 3600) % 24` and `minutes = (t % 3600) // 60` by
integer (floor) division and renders them zero-padded; input 57300 seconds
since midnight formats to "15:55". -/
theorem c8_departure_formatting :
    (∀ t : Int, Transport.formatHHMM t =
      Transport.pad2 ((t.ediv 3600).emod 24) ++ ":" ++
        Transport.pad2 ((t.emod 3600).ediv 60)) ∧
    Transport.formatHHMM 57300 = "15:55" := by
  exact ⟨fun t => rfl, by decide⟩

/-- C9: the sleep-duration formatter maps a duration in seconds to
"H h M min" with integer division and no rounding of the minutes; input
26722 seconds formats to "7 h 25 min".  (The formatter itself is not in
`src/`; `format_sleep_duration` is modelled from the spec.) -/
theorem c9_sleep_duration_formatting :
    (∀ s : Nat, SleepFmt.format_sleep_duration s =
      toString (s / 3600) ++ " h " ++ toString ((s % 3600) / 60) ++ " min") ∧
    SleepFmt.format_sleep_duration 26722 = "7 h 25 min" := by
  exact ⟨fun s => rfl, by decide⟩

/-- C10: `get_next_departure_minutes` never returns a negative value for
any scripted API response and wall-clock time; every no-match or error
path (missing API key, transport error, missing stop, exhausted list)
returns 0; and when the first matching departure lies before the current
time, 24 hours are added before the truncating division by 60. -/
theorem c10_departure_minutes_nonneg :
    (∀ key out route kw current,
      0 ≤ Transport.get_next_departure_minutes key out route kw current) ∧
    (∀ key route kw current,
      Transport.get_next_departure_minutes key .transportError route kw current = 0) ∧
    (∀ out route kw current,
      Transport.get_next_departure_minutes none out route kw current = 0) ∧
    (∀ key status j errs route kw current,
      Transport.get_next_departure_minutes key (.resp status j errs none)
        route kw current = 0) ∧
    (∀ route kw current, Transport.nextDepartureLoop route kw current [] = 0) ∧
    (∀ route kw current rest dep (st : Transport.StopTime),
      st.routeShortName = some route →
      containsLower (st.tripHeadsign.getD "") kw = true →
      Transport.departureOf st = some dep →
      dep - current < 0 →
      0 ≤ dep - current + 24 * 3600 →
      Transport.nextDepartureLoop route kw current (st :: rest) =
        Int.tdiv (dep - current + 24 * 3600) 60) := by
  refine ⟨?_, ?_, ?_, ?_, ?_, ?_⟩
  · intro key out route kw current
    unfold Transport.get_next_departure_minutes
    split_ifs with h1
    · exact le_refl 0
    · cases out with
      | transportError => exact le_refl 0
      | resp status j errs stop =>
        dsimp only
        split_ifs with h2 h3 h4
        · exact le_refl 0
        · exact le_refl 0
        · exact le_refl 0
        · cases stop with
          | none => exact le_refl 0
          | some l => exact Transport.loop_nonneg route kw current l
  · intro key route kw current
    unfold Transport.get_next_departure_minutes
    split_ifs <;> rfl
  · intro out route kw current
    rfl
  · intro key status j errs route kw current
    unfold Transport.get_next_departure_minutes
    split_ifs with h1
    · rfl
    · dsimp only
      split_ifs <;> rfl
  · intro route kw current
    rfl
  · intro route kw current rest dep st h1 h2 h3 h4 h5
    unfold Transport.nextDepartureLoop
    rw [if_neg (by simp [h1]), if_neg (by simp [h2]), h3]
    dsimp only
    rw [if_pos h4, if_pos (Int.tdiv_nonneg h5 (by decide))]

/-- Witness for C10: a stop-time matching route "66" towards "Paloheinä"
departing at 60 seconds past midnight, queried at 23:59:00, yields the
wrapped-around minute count (and, via the main conjunct, a non-negative
one). -/
theorem c10_departure_minutes_nonneg_witness :
    Transport.nextDepartureLoop "66" "paloheinä" 86340
      [⟨some "66", some "Paloheinä via X", some 60, none⟩] =
      Int.tdiv (60 - 86340 + 24 * 3600) 60 :=
  c10_departure_minutes_nonneg.2.2.2.2.2 "66" "paloheinä" 86340 []
    60 ⟨some "66", some "Paloheinä via X", some 60, none⟩
    (by decide) (by decide) (by decide) (by decide) (by decide)
